import Mathlib

/-!
Shallow embedding of the comment widget in
`src/components/CommunityDetailView/CommunityDetailComment.vue`.

The component keeps an in-memory list of comments for a post, mirrors it
into `localStorage` under the key `"comments_" + postId`
(`JSON.stringify` on write, `JSON.parse` on read), creates comments via a
remote call (`handleSubmit`), deletes them via a remote call
(`handleDelete`), reloads the cached list when `postId` changes (the
`watch`), and has a 60-second `setInterval` tick that recomputes a
relative-time label.

Modelling conventions:
* JavaScript strings held in storage are represented by their
  `JSON.parse` outcome (`StoredString`): either the JSON value the string
  denotes, a marker for a non-empty string on which `JSON.parse` throws,
  or the empty string (which is falsy, so `getStoredComments` never
  parses it).  `JSON.stringify v` is a non-empty string that parses back
  to `v`, hence it is modelled as `StoredString.json v`.
* External collaborators (the comment service, the auth store, `dayjs`,
  `window.confirm`) are parameters: the remote outcome is an
  `Except Unit _` argument, identity is the captured `userId` string
  (absent identity = `""`, matching `authStore.userId ?? ''`), and the
  relative-time computation is an opaque `String → String`.
* Side effects (modal, alert, console, network calls, writes to the
  `submitting` ref) are recorded in an `Event` trace returned next to the
  new state.
* JavaScript `trim()` is modelled by the executable `jsTrim`; the claims
  only need the behaviour on empty / non-empty trimmed text.
-/

namespace ArtLibro

/-- A JSON value, as produced by `JSON.parse`.  Numbers are modelled as
integers; the claims only need the existence of some non-array JSON
value, never numeric arithmetic. -/
inductive Json where
  | null
  | bool (b : Bool)
  | num (n : Int)
  | str (s : String)
  | arr (elems : List Json)
  | obj (fields : List (String × Json))
deriving Repr

/-- A JavaScript string held in `localStorage`, represented by its
`JSON.parse` outcome.  Any string that parses is non-empty (hence
truthy), and the empty string is the only falsy string. -/
inductive StoredString where
  | json (j : Json)
  | badJson
  | empty
deriving Repr

/-- The browser `localStorage`: a key-value map from strings to strings. -/
def Storage := String → Option StoredString

/-- `localStorage.setItem`. -/
def Storage.set (st : Storage) (k : String) (v : StoredString) : Storage :=
  fun k2 => if k2 = k then some v else st k2

/-- A storage with no entries. -/
def Storage.emptyStore : Storage := fun _ => none

/-- The comment record, exactly the element type declared for the
`comments` ref: `{ id; author; avatar; content; datetime }`. -/
structure Comment where
  id : String
  author : String
  avatar : String
  content : String
  datetime : String
deriving Repr, DecidableEq

/-- The JSON object `JSON.stringify` produces for one comment record
(field insertion order as in the object literal in `handleSubmit`). -/
def Comment.toJson (c : Comment) : Json :=
  .obj [("id", .str c.id), ("author", .str c.author), ("avatar", .str c.avatar),
        ("content", .str c.content), ("datetime", .str c.datetime)]

/-- The JSON array `JSON.stringify` produces for the comments list. -/
def commentsToJson (l : List Comment) : Json :=
  .arr (l.map Comment.toJson)

/-- Reading a comment record back out of a parsed JSON value.  The
component itself performs no such validation (it assigns the parsed
value directly); this decoder names the typed reading of a JSON value
that happens to have the serialized comment shape. -/
def decodeComment : Json → Option Comment
  | .obj [("id", .str i), ("author", .str a), ("avatar", .str av),
          ("content", .str c), ("datetime", .str d)] =>
      some ⟨i, a, av, c, d⟩
  | _ => none

/-- Typed reading of a list of parsed JSON values as comment records. -/
def decodeCommentList : List Json → Option (List Comment)
  | [] => some []
  | j :: t => do
      let c ← decodeComment j
      let rest ← decodeCommentList t
      pure (c :: rest)

/-- Typed reading of a parsed cache value as a comment list. -/
def decodeComments : Json → Option (List Comment)
  | .arr l => decodeCommentList l
  | _ => none

/-- The JavaScript string builtin `trim()` (strip whitespace from both
ends), modelled executably over the character list. -/
def jsTrim (s : String) : String :=
  .mk (((s.data.dropWhile Char.isWhitespace).reverse.dropWhile
    Char.isWhitespace).reverse)

/-- The cache key `comments_${postId}`. -/
def commentsKey (postId : String) : String := "comments_" ++ postId

/-- `getStoredComments`: reads `localStorage.getItem` at the cache key and
returns `saved ? JSON.parse(saved) : []`.  `.error ()` is `JSON.parse`
throwing on a truthy non-JSON string; an absent entry and the (falsy)
empty string both yield `[]` unparsed. -/
def getStoredComments (storage : Storage) (postId : String) : Except Unit Json :=
  match storage (commentsKey postId) with
  | none => .ok (.arr [])
  | some .empty => .ok (.arr [])
  | some .badJson => .error ()
  | some (.json j) => .ok j

/-- `saveCommentsToStorage`: `localStorage.setItem` of
`JSON.stringify(comments.value)` at the cache key. -/
def saveCommentsToStorage (storage : Storage) (postId : String)
    (comments : List Comment) : Storage :=
  storage.set (commentsKey postId) (.json (commentsToJson comments))

/-- Observable side effects of one operation, in program order. -/
inductive Event where
  | modalWarning
  | setSubmitting (b : Bool)
  | callCreateComment (postId text token : String)
  | callDeleteComment (commentId token : String)
  | consoleError
  | alertShown (msg : String)
  | confirmPrompt (msg : String)
deriving Repr, DecidableEq

/-- The response of the external `createComment` call, with the fields
`handleSubmit` reads: `_id`, `comment`, `createdAt`. -/
structure CreateResponse where
  _id : String
  comment : String
  createdAt : String
deriving Repr, DecidableEq

/-- The component's reactive state: the `comments` ref, the draft text
ref `value`, the `submitting` flag, and the browser storage it mirrors
into. -/
structure PanelState where
  comments : List Comment
  value : String
  submitting : Bool
  storage : Storage

/-- The comment object literal built in `handleSubmit` from the create
response and the auth store (`authStore.fullName ?? '익명'`, fixed dummy
avatar). -/
def newCommentOf (fullName : Option String) (response : CreateResponse) : Comment :=
  { id := response._id
    author := fullName.getD "익명"
    avatar := "/images/user-dummy.png"
    content := response.comment
    datetime := response.createdAt }

/-- `handleSubmit`.  Aborts silently on empty trimmed draft; shows the
login modal and aborts when identity is absent (`userId = ""`); otherwise
sets `submitting`, performs the remote create (`remote` is its outcome),
and on success prepends the new comment, persists the list and clears the
draft, while on failure it logs, alerts and leaves the data untouched;
`finally` resets `submitting`. -/
def handleSubmit (st : PanelState) (postId userId token : String)
    (fullName : Option String) (remote : Except Unit CreateResponse) :
    PanelState × List Event :=
  if jsTrim st.value = "" then (st, [])
  else if userId = "" then (st, [.modalWarning])
  else
    match remote with
    | .ok response =>
      let newList := newCommentOf fullName response :: st.comments
      ({ comments := newList
         value := ""
         submitting := false
         storage := saveCommentsToStorage st.storage postId newList },
       [.setSubmitting true, .callCreateComment postId st.value token,
        .setSubmitting false])
    | .error _ =>
      ({ st with submitting := false },
       [.setSubmitting true, .callCreateComment postId st.value token,
        .consoleError, .alertShown "댓글 작성 중 오류가 발생했습니다.",
        .setSubmitting false])

/-- `handleDelete`.  Aborts when the confirmation prompt is declined;
otherwise performs the remote delete and, on success, filters the comment
out of the list and persists it, while on failure it logs and alerts,
leaving the data untouched. -/
def handleDelete (st : PanelState) (postId token commentId : String)
    (confirmed : Bool) (remote : Except Unit Unit) : PanelState × List Event :=
  if !confirmed then (st, [.confirmPrompt "댓글을 삭제하시겠습니까?"])
  else
    match remote with
    | .ok _ =>
      let newList := st.comments.filter (fun c => c.id != commentId)
      ({ st with comments := newList
                 storage := saveCommentsToStorage st.storage postId newList },
       [.confirmPrompt "댓글을 삭제하시겠습니까?",
        .callDeleteComment commentId token])
    | .error _ =>
      (st, [.confirmPrompt "댓글을 삭제하시겠습니까?",
            .callDeleteComment commentId token, .consoleError,
            .alertShown "댓글 삭제 중 오류가 발생했습니다."])

/-- Outcome of assigning `getStoredComments()` to the typed `comments`
ref: the parsed value decodes as a comment list (`loaded`), it is some
other JSON value assigned untyped and unvalidated (`untypedAssign`), or
`JSON.parse` threw (`parseThrow`). -/
inductive LoadOutcome where
  | loaded (st : PanelState)
  | untypedAssign (j : Json)
  | parseThrow

/-- The `watch` on `props.postId`: when the new id is truthy (non-empty),
reassigns `comments.value = getStoredComments()` for the new id. -/
def watchPostId (st : PanelState) (newPostId : String) : LoadOutcome :=
  if newPostId = "" then .loaded st
  else
    match getStoredComments st.storage newPostId with
    | .error _ => .parseThrow
    | .ok j =>
      match decodeComments j with
      | some l => .loaded { st with comments := l }
      | none => .untypedAssign j

/-- A comment object as the interval tick leaves it: the five stored
fields plus the `relativeTime` property the tick spreads in (absent until
a first tick has run). -/
structure TickComment where
  id : String
  author : String
  avatar : String
  content : String
  datetime : String
  relativeTime : Option String
deriving Repr, DecidableEq

/-- The five stored fields of a tick-time comment object. -/
def TickComment.core (c : TickComment) : Comment :=
  { id := c.id, author := c.author, avatar := c.avatar,
    content := c.content, datetime := c.datetime }

/-- State visible to the interval tick: the comments and the storage. -/
structure TickState where
  comments : List TickComment
  storage : Storage

/-- The 60-second `setInterval` callback: maps each comment to a copy
with a recomputed `relativeTime` label (`dayjs(datetime).fromNow()`,
modelled by the opaque `fromNow`).  It touches nothing else. -/
def intervalTick (fromNow : String → String) (st : TickState) :
    TickState × List Event :=
  ({ comments := st.comments.map fun c =>
       { c with relativeTime := some (fromNow c.datetime) }
     storage := st.storage }, [])

/-! Helper lemmas shared by the claim theorems. -/

theorem decodeComment_toJson (c : Comment) : decodeComment c.toJson = some c := rfl

theorem decodeComments_commentsToJson (l : List Comment) :
    decodeComments (commentsToJson l) = some l := by
  induction l with
  | nil => rfl
  | cons c t ih =>
    have ih2 : decodeCommentList (t.map Comment.toJson) = some t := ih
    simp [commentsToJson, decodeComments, List.map_cons, decodeCommentList,
      decodeComment_toJson, ih2]

theorem getStoredComments_save (storage : Storage) (postId : String)
    (l : List Comment) :
    getStoredComments (saveCommentsToStorage storage postId l) postId =
      .ok (commentsToJson l) := by
  simp [getStoredComments, saveCommentsToStorage, Storage.set]

/-- C2: persisting a comments list with `saveCommentsToStorage` and then
loading it with `getStoredComments` (which reads key `"comments_" + postId`)
yields exactly the serialized sequence back, and reading that JSON value
as comments returns the original list unchanged in order and content. -/
theorem save_load_roundtrip (storage : Storage) (postId : String)
    (l : List Comment) :
    getStoredComments (saveCommentsToStorage storage postId l) postId =
      .ok (commentsToJson l) ∧
    decodeComments (commentsToJson l) = some l :=
  ⟨getStoredComments_save storage postId l, decodeComments_commentsToJson l⟩

/-- C1: with a non-empty trimmed draft and a present identity, a successful
`handleSubmit` prepends exactly the one new comment built from the server
response, persists the full resulting list under the post's cache key, and
clears the draft text. -/
theorem handleSubmit_success (st : PanelState) (postId userId token : String)
    (fullName : Option String) (response : CreateResponse)
    (htext : jsTrim st.value ≠ "") (hid : userId ≠ "") :
    (handleSubmit st postId userId token fullName (.ok response)).1.comments =
      newCommentOf fullName response :: st.comments ∧
    (handleSubmit st postId userId token fullName (.ok response)).1.value = "" ∧
    (handleSubmit st postId userId token fullName (.ok response)).1.storage
        (commentsKey postId) =
      some (.json (commentsToJson (newCommentOf fullName response :: st.comments))) ∧
    decodeComments (commentsToJson (newCommentOf fullName response :: st.comments)) =
      some (newCommentOf fullName response :: st.comments) := by
  refine ⟨?_, ?_, ?_, decodeComments_commentsToJson _⟩ <;>
    simp [handleSubmit, htext, hid, saveCommentsToStorage, Storage.set]

theorem handleSubmit_success_witness :
    jsTrim "hello" ≠ "" ∧ ("u1" : String) ≠ "" ∧
    (handleSubmit ⟨[], "hello", false, Storage.emptyStore⟩ "42" "u1" "tok"
        (some "Alice") (.ok ⟨"c1", "hello", "2024-01-01T00:00:00Z"⟩)).1.comments =
      [⟨"c1", "Alice", "/images/user-dummy.png", "hello", "2024-01-01T00:00:00Z"⟩] ∧
    (handleSubmit ⟨[], "hello", false, Storage.emptyStore⟩ "42" "u1" "tok"
        (some "Alice") (.ok ⟨"c1", "hello", "2024-01-01T00:00:00Z"⟩)).1.value = "" := by
  have h := handleSubmit_success ⟨[], "hello", false, Storage.emptyStore⟩ "42" "u1"
    "tok" (some "Alice") ⟨"c1", "hello", "2024-01-01T00:00:00Z"⟩
    (by decide) (by decide)
  exact ⟨by decide, by decide, h.1, h.2.1⟩

/-- C3 counterexample: in a state whose identity is absent but whose draft
text is empty after trimming, `handleSubmit` aborts with no events at all;
in particular the login prompt is never surfaced, contradicting the claim
for this state (the no-change and no-call parts do hold). -/
theorem handleSubmit_absent_identity_cex :
    (handleSubmit ⟨[], "", false, Storage.emptyStore⟩ "42" "" "" none
      (.error ())).2 = [] ∧
    Event.modalWarning ∉
      (handleSubmit ⟨[], "", false, Storage.emptyStore⟩ "42" "" "" none
        (.error ())).2 := by
  constructor
  · rfl
  · decide

/-- C3 (amended): when identity is absent and the trimmed draft is
non-empty, `handleSubmit` leaves the entire state (comments, cache, draft)
unchanged and emits only the login modal — no remote call; when the
trimmed draft is also empty, it aborts unchanged but silently, with no
prompt and no call. -/
theorem handleSubmit_absent_identity (st : PanelState) (postId token : String)
    (fullName : Option String) (remote : Except Unit CreateResponse) :
    (jsTrim st.value ≠ "" →
      handleSubmit st postId "" token fullName remote = (st, [.modalWarning])) ∧
    (jsTrim st.value = "" →
      handleSubmit st postId "" token fullName remote = (st, [])) := by
  constructor <;> intro h <;> simp [handleSubmit, h]

theorem handleSubmit_absent_identity_witness :
    jsTrim "hi" ≠ "" ∧
    handleSubmit ⟨[], "hi", false, Storage.emptyStore⟩ "42" "" "tok" none
        (.error ()) =
      (⟨[], "hi", false, Storage.emptyStore⟩, [.modalWarning]) :=
  ⟨by decide,
   (handleSubmit_absent_identity ⟨[], "hi", false, Storage.emptyStore⟩ "42" "tok"
     none (.error ())).1 (by decide)⟩

/-- C4: when the remote create or delete call fails, the comments list,
the persisted cache, and (for submit) the draft text keep their pre-call
values; the failure is reported through a single blocking alert and the
operation performs exactly one remote call, with no retry. -/
theorem remote_failure_atomic (st : PanelState)
    (postId userId token commentId : String) (fullName : Option String)
    (htext : jsTrim st.value ≠ "") (hid : userId ≠ "") :
    ((handleSubmit st postId userId token fullName (.error ())).1.comments =
        st.comments ∧
      (handleSubmit st postId userId token fullName (.error ())).1.value =
        st.value ∧
      (handleSubmit st postId userId token fullName (.error ())).1.storage =
        st.storage ∧
      (handleSubmit st postId userId token fullName (.error ())).2 =
        [.setSubmitting true, .callCreateComment postId st.value token,
         .consoleError, .alertShown "댓글 작성 중 오류가 발생했습니다.",
         .setSubmitting false]) ∧
    ((handleDelete st postId token commentId true (.error ())).1 = st ∧
      (handleDelete st postId token commentId true (.error ())).2 =
        [.confirmPrompt "댓글을 삭제하시겠습니까?",
         .callDeleteComment commentId token, .consoleError,
         .alertShown "댓글 삭제 중 오류가 발생했습니다."]) := by
  refine ⟨⟨?_, ?_, ?_, ?_⟩, ?_, ?_⟩ <;>
    simp [handleSubmit, handleDelete, htext, hid]

theorem remote_failure_atomic_witness :
    jsTrim "draft" ≠ "" ∧ ("u1" : String) ≠ "" ∧
    (handleSubmit ⟨[⟨"a", "A", "av", "c1", "d"⟩], "draft", false,
        Storage.emptyStore⟩ "42" "u1" "tok" none (.error ())).1.comments =
      [⟨"a", "A", "av", "c1", "d"⟩] ∧
    (handleDelete ⟨[⟨"a", "A", "av", "c1", "d"⟩], "draft", false,
        Storage.emptyStore⟩ "42" "tok" "a" true (.error ())).1.comments =
      [⟨"a", "A", "av", "c1", "d"⟩] := by
  have h := remote_failure_atomic ⟨[⟨"a", "A", "av", "c1", "d"⟩], "draft", false,
    Storage.emptyStore⟩ "42" "u1" "tok" "a" none (by decide) (by decide)
  exact ⟨by decide, by decide, h.1.1, by rw [h.2.1]⟩

/-- C5: after a confirmed, successful delete of a comment `x` present in
the list, `x` is absent from the in-memory list and from the persisted
cache entry, and the remaining comments are exactly the original list
restricted to the other ids, in their original relative order. -/
theorem handleDelete_success (st : PanelState) (postId token : String)
    (x : Comment) (hmem : x ∈ st.comments) :
    (handleDelete st postId token x.id true (.ok ())).1.comments =
      st.comments.filter (fun c => c.id != x.id) ∧
    x ∉ (handleDelete st postId token x.id true (.ok ())).1.comments ∧
    List.Sublist (handleDelete st postId token x.id true (.ok ())).1.comments
      st.comments ∧
    (∀ c ∈ st.comments, c.id ≠ x.id →
      c ∈ (handleDelete st postId token x.id true (.ok ())).1.comments) ∧
    (handleDelete st postId token x.id true (.ok ())).1.storage
        (commentsKey postId) =
      some (.json (commentsToJson
        (st.comments.filter (fun c => c.id != x.id)))) ∧
    decodeComments
        (commentsToJson (st.comments.filter (fun c => c.id != x.id))) =
      some (st.comments.filter (fun c => c.id != x.id)) := by
  have hcom : (handleDelete st postId token x.id true (.ok ())).1.comments =
      st.comments.filter (fun c => c.id != x.id) := by
    simp [handleDelete]
  refine ⟨hcom, ?_, ?_, ?_, ?_, decodeComments_commentsToJson _⟩
  · rw [hcom]
    simp [List.mem_filter]
  · rw [hcom]
    exact List.filter_sublist _
  · intro c hc hne
    rw [hcom]
    exact List.mem_filter.mpr ⟨hc, by simpa [bne_iff_ne] using hne⟩
  · simp [handleDelete, saveCommentsToStorage, Storage.set]

theorem handleDelete_success_witness :
    (⟨"a", "A", "av", "c1", "d"⟩ : Comment) ∈
      [(⟨"a", "A", "av", "c1", "d"⟩ : Comment), ⟨"b", "B", "av", "c2", "d"⟩] ∧
    (handleDelete ⟨[⟨"a", "A", "av", "c1", "d"⟩, ⟨"b", "B", "av", "c2", "d"⟩],
        "", false, Storage.emptyStore⟩ "42" "tok" "a" true (.ok ())).1.comments =
      [⟨"b", "B", "av", "c2", "d"⟩] := by
  have h := handleDelete_success
    ⟨[⟨"a", "A", "av", "c1", "d"⟩, ⟨"b", "B", "av", "c2", "d"⟩], "", false,
      Storage.emptyStore⟩ "42" "tok" ⟨"a", "A", "av", "c1", "d"⟩ (by decide)
  exact ⟨by decide, h.1.trans (by decide)⟩

/-- C6: deleting a comment id that occurs nowhere in the list leaves the
comments list unchanged, whatever the confirmation answer and the remote
outcome. -/
theorem handleDelete_missing_id (st : PanelState) (postId token commentId : String)
    (confirmed : Bool) (remote : Except Unit Unit)
    (h : ∀ c ∈ st.comments, c.id ≠ commentId) :
    (handleDelete st postId token commentId confirmed remote).1.comments =
      st.comments := by
  have hf : st.comments.filter (fun c => c.id != commentId) = st.comments :=
    List.filter_eq_self.mpr fun c hc => by simpa [bne_iff_ne] using h c hc
  cases confirmed <;> cases remote <;> simp [handleDelete, hf]

theorem handleDelete_missing_id_witness :
    (∀ c ∈ [(⟨"a", "A", "av", "c1", "d"⟩ : Comment)], c.id ≠ "zzz") ∧
    (handleDelete ⟨[⟨"a", "A", "av", "c1", "d"⟩], "", false, Storage.emptyStore⟩
        "42" "tok" "zzz" true (.ok ())).1.comments =
      [⟨"a", "A", "av", "c1", "d"⟩] :=
  ⟨by decide,
   handleDelete_missing_id ⟨[⟨"a", "A", "av", "c1", "d"⟩], "", false,
     Storage.emptyStore⟩ "42" "tok" "zzz" true (.ok ()) (by decide)⟩

/-- C7: when `postId` changes to a non-empty identifier, the displayed
list becomes exactly the cached sequence stored under the new id's cache
key — the empty sequence when no cache entry exists — with no residual
entries from the previous identifier. -/
theorem watchPostId_loads_cache (st : PanelState) (newPostId : String)
    (l : List Comment) (hne : newPostId ≠ "") :
    (st.storage (commentsKey newPostId) = some (.json (commentsToJson l)) →
      watchPostId st newPostId = .loaded { st with comments := l }) ∧
    (st.storage (commentsKey newPostId) = none →
      watchPostId st newPostId = .loaded { st with comments := [] }) := by
  constructor <;> intro hc
  · simp [watchPostId, hne, getStoredComments, hc, decodeComments_commentsToJson]
  · simp [watchPostId, hne, getStoredComments, hc, decodeComments,
      decodeCommentList]

theorem watchPostId_loads_cache_witness :
    ("43" : String) ≠ "" ∧
    saveCommentsToStorage Storage.emptyStore "43" [⟨"b", "B", "av", "c2", "d"⟩]
        (commentsKey "43") =
      some (.json (commentsToJson [⟨"b", "B", "av", "c2", "d"⟩])) ∧
    watchPostId ⟨[⟨"a", "A", "av", "c1", "d"⟩], "", false,
        saveCommentsToStorage Storage.emptyStore "43"
          [⟨"b", "B", "av", "c2", "d"⟩]⟩ "43" =
      .loaded ⟨[⟨"b", "B", "av", "c2", "d"⟩], "", false,
        saveCommentsToStorage Storage.emptyStore "43"
          [⟨"b", "B", "av", "c2", "d"⟩]⟩ := by
  refine ⟨by decide, rfl, ?_⟩
  exact (watchPostId_loads_cache ⟨[⟨"a", "A", "av", "c1", "d"⟩], "", false,
    saveCommentsToStorage Storage.emptyStore "43" [⟨"b", "B", "av", "c2", "d"⟩]⟩
    "43" [⟨"b", "B", "av", "c2", "d"⟩] (by decide)).1 rfl

/-- C8: the `submitting` flag is written only after both preconditions
pass — the empty-draft and absent-identity aborts emit no flag write at
all — and when it is written, it is set to `true` first and reset to
`false` last for both remote outcomes, leaving the final flag `false`. -/
theorem submitting_flag_discipline (st : PanelState) (postId userId token : String)
    (fullName : Option String) (remote : Except Unit CreateResponse) :
    (jsTrim st.value = "" →
      (handleSubmit st postId userId token fullName remote).2 = []) ∧
    (jsTrim st.value ≠ "" → userId = "" →
      (handleSubmit st postId userId token fullName remote).2 =
        [.modalWarning]) ∧
    (jsTrim st.value ≠ "" → userId ≠ "" → ∀ response : CreateResponse,
      (handleSubmit st postId userId token fullName (.ok response)).2 =
        [.setSubmitting true, .callCreateComment postId st.value token,
         .setSubmitting false] ∧
      (handleSubmit st postId userId token fullName
        (.ok response)).1.submitting = false) ∧
    (jsTrim st.value ≠ "" → userId ≠ "" →
      (handleSubmit st postId userId token fullName (.error ())).2 =
        [.setSubmitting true, .callCreateComment postId st.value token,
         .consoleError, .alertShown "댓글 작성 중 오류가 발생했습니다.",
         .setSubmitting false] ∧
      (handleSubmit st postId userId token fullName
        (.error ())).1.submitting = false) := by
  refine ⟨fun h => by simp [handleSubmit, h],
    fun h hu => by simp [handleSubmit, h, hu],
    fun h hu response =>
      ⟨by simp [handleSubmit, h, hu], by simp [handleSubmit, h, hu]⟩,
    fun h hu =>
      ⟨by simp [handleSubmit, h, hu], by simp [handleSubmit, h, hu]⟩⟩

theorem submitting_flag_discipline_witness :
    jsTrim "hey" ≠ "" ∧ ("u1" : String) ≠ "" ∧
    (handleSubmit ⟨[], "hey", false, Storage.emptyStore⟩ "42" "u1" "tok" none
        (.ok ⟨"c1", "hey", "t"⟩)).2 =
      [.setSubmitting true, .callCreateComment "42" "hey" "tok",
       .setSubmitting false] := by
  have h := submitting_flag_discipline ⟨[], "hey", false, Storage.emptyStore⟩
    "42" "u1" "tok" none (.error ())
  exact ⟨by decide, by decide,
    (h.2.2.1 (by decide) (by decide) ⟨"c1", "hey", "t"⟩).1⟩

/-- C9: the 60-second interval tick only recomputes the derived
`relativeTime` label: every comment's stored id, author, avatar, content
and `datetime` are unchanged, the storage is untouched (no cache write),
and no effect — in particular no network call — is emitted. -/
theorem intervalTick_display_only (fromNow : String → String) (st : TickState) :
    (intervalTick fromNow st).1.comments.map TickComment.core =
      st.comments.map TickComment.core ∧
    (intervalTick fromNow st).1.storage = st.storage ∧
    (intervalTick fromNow st).2 = [] := by
  refine ⟨?_, rfl, rfl⟩
  show (st.comments.map fun c =>
      { c with relativeTime := some (fromNow c.datetime) }).map TickComment.core =
    st.comments.map TickComment.core
  induction st.comments with
  | nil => rfl
  | cons c t ih =>
    simp only [List.map_cons, ih]
    rfl

/-- C10: loading performs no shape validation — whatever JSON value is
stored under the cache key is returned and assigned as the comments list
as-is, even when it is not an array of comment records — and a stored
string that is not valid JSON makes the load throw instead of yielding a
sequence. -/
theorem getStoredComments_no_validation (storage : Storage) (p : String)
    (j : Json) (comments0 : List Comment) (v : String) (b : Bool) :
    (storage (commentsKey p) = some (.json j) →
      getStoredComments storage p = .ok j ∧
      (p ≠ "" → decodeComments j = none →
        watchPostId ⟨comments0, v, b, storage⟩ p = .untypedAssign j)) ∧
    (storage (commentsKey p) = some .badJson →
      getStoredComments storage p = .error ()) := by
  refine ⟨fun hc => ⟨?_, fun hp hd => ?_⟩, fun hc => ?_⟩
  · simp [getStoredComments, hc]
  · simp [watchPostId, hp, getStoredComments, hc, hd]
  · simp [getStoredComments, hc]

theorem getStoredComments_no_validation_witness :
    Storage.set Storage.emptyStore (commentsKey "42") (.json (.num 5))
        (commentsKey "42") = some (.json (.num 5)) ∧
    getStoredComments
        (Storage.set Storage.emptyStore (commentsKey "42") (.json (.num 5)))
        "42" = .ok (.num 5) ∧
    watchPostId ⟨[], "", false,
        Storage.set Storage.emptyStore (commentsKey "42") (.json (.num 5))⟩
        "42" = .untypedAssign (.num 5) ∧
    getStoredComments
        (Storage.set Storage.emptyStore (commentsKey "7") .badJson) "7" =
      .error () := by
  have hA := (getStoredComments_no_validation
    (Storage.set Storage.emptyStore (commentsKey "42") (.json (.num 5))) "42"
    (.num 5) [] "" false).1 rfl
  have hB := (getStoredComments_no_validation
    (Storage.set Storage.emptyStore (commentsKey "7") .badJson) "7"
    (.num 5) [] "" false).2 rfl
  exact ⟨rfl, hA.1, hA.2 (by decide) rfl, hB⟩

end ArtLibro
